import Mathlib

/-!
Shallow embedding of `CubeModel.hpp` from the MiSmartCube-ESP32 repository.

The C++ class `CubeModel` stores a 3x3x3 Rubik's cube as
  - 12 edge slots, each a `Cubie { uint8_t index; DIR orientation; }`,
  - 8 corner slots, same shape,
  - 6 fixed center colors,
plus move metadata (`turnedFace`, `turnedDir`, `lastTurnedFace`,
`lastTurnedDir`).

Machine integers: every C++ field involved is `uint8_t`; where wraparound
can actually occur (the `data[i] - 1` decode of 1-based identities) we
model it explicitly as `(v + 255) % 256`.  Enum values are modelled by
their numeric codes, because the C++ code casts raw bytes into the enums
(`(DIR)data[i+8]`, `(FACE)data[32]`), so out-of-enum numeric values are
representable and must be representable in the model too.

Enum numeric codes, straight from the source:
  FACE  : UP=0, LEFT=1, FRONT=2, RIGHT=3, BACK=4, DOWN=5, NONE=6
  COLOR : BLUE=0, YELLOW=1, ORANGE=2, WHITE=3, RED=4, GREEN=5
  EDGE  : UB=0, UL=1, UF=2, UR=3, BL=4, FL=5, FR=6, _BR=7,
          DB=8, DL=9, DF=10, DR=11
  CORNER: ULB=0, ULF=1, URF=2, URB=3, DLB=4, DLF=5, DRF=6, DRB=7
  DIR   : ORIENTED=3, FLIPPED=4, ROTATED=2, ROTATED_TWICE=1

The fixed-size C++ arrays are modelled as total functions out of `Nat`;
only the indices the C++ code can reach (0..11 edges, 0..7 corners,
0..5 centers) are ever read by the modelled operations, except where the
C++ itself reads out of bounds (`centers[(uint8_t)face]` for
`FACE::NONE`), which we model as `Option.none`.  Reading an
uninitialised `result` array (the color switch falling through for an
out-of-range cubie index) is likewise modelled as `Option.none`.
-/

/-- The six sticker colors, numeric codes BLUE=0 .. GREEN=5 as in the
C++ `enum class COLOR`. -/
inductive COLOR : Type where
  | BLUE
  | YELLOW
  | ORANGE
  | WHITE
  | RED
  | GREEN
deriving DecidableEq

/-- One movable piece slot: which original cubie occupies it and its
orientation code (`DIR` is kept numeric because raw bytes are cast into
it by the decoding constructor). -/
structure Cubie : Type where
  index : Nat
  orientation : Nat
deriving DecidableEq

/-- Numeric code of `DIR::ORIENTED`. -/
def DIR.ORIENTED : Nat := 3
/-- Numeric code of `DIR::FLIPPED`. -/
def DIR.FLIPPED : Nat := 4
/-- Numeric code of `DIR::ROTATED`. -/
def DIR.ROTATED : Nat := 2
/-- Numeric code of `DIR::ROTATED_TWICE`. -/
def DIR.ROTATED_TWICE : Nat := 1

/-- The cube state: 12 edge slots, 8 corner slots, 6 centers, and the
Xiaomi-specific move metadata fields. -/
structure CubeModel : Type where
  edges : Nat → Cubie
  corners : Nat → Cubie
  centers : Nat → COLOR
  lastTurnedFace : Nat
  lastTurnedDir : Nat
  turnedFace : Nat
  turnedDir : Nat

/-- The fixed center assignment both constructors write:
UP=GREEN, LEFT=RED, FRONT=WHITE, RIGHT=ORANGE, BACK=YELLOW, DOWN=BLUE.
(The C++ array has six entries; indices beyond 5 are never written nor
read in-bounds, the value there is irrelevant filler.) -/
def solvedCenters : Nat → COLOR
  | 0 => COLOR.GREEN
  | 1 => COLOR.RED
  | 2 => COLOR.WHITE
  | 3 => COLOR.ORANGE
  | 4 => COLOR.YELLOW
  | 5 => COLOR.BLUE
  | _ => COLOR.BLUE

/-- The default constructor `CubeModel::CubeModel()`: identity
permutations, all orientations ORIENTED, fixed centers, move metadata
cleared (`FACE::NONE` = 6, direction 0). -/
def CubeModel.init : CubeModel where
  edges := fun i => { index := i, orientation := DIR.ORIENTED }
  corners := fun i => { index := i, orientation := DIR.ORIENTED }
  centers := solvedCenters
  lastTurnedFace := 6
  lastTurnedDir := 0
  turnedFace := 6
  turnedDir := 0

/-- `this->edges[j].orientation = o` on a function-modelled array. -/
def updOrient (e : Nat → Cubie) (j : Nat) (o : Nat) : Nat → Cubie :=
  fun k => if k = j then { index := (e j).index, orientation := o } else e k

/-- The decoding constructor `CubeModel::CubeModel(const uint8_t*)` for a
36-byte Xiaomi frame.  `data i - 1` on `uint8_t` is `(data i + 255) % 256`.
The two flip-pattern `if`s are kept as two sequential conditional update
blocks exactly as in the source. -/
def CubeModel.decode (data : Nat → Nat) : CubeModel :=
  let corners : Nat → Cubie :=
    fun i => { index := (data i + 255) % 256, orientation := data (i + 8) }
  let edges0 : Nat → Cubie :=
    fun i => { index := (data (i + 16) + 255) % 256, orientation := DIR.ORIENTED }
  let edges1 : Nat → Cubie :=
    if (data 28 = 8 ∧ data 29 = 9 ∧ data 30 = 8) ∨
       (data 28 = 0x0A ∧ data 29 = 0x0F ∧ data 30 = 0x0A) then
      updOrient (updOrient (updOrient (updOrient edges0
        0 DIR.FLIPPED) 4 DIR.FLIPPED) 7 DIR.FLIPPED) 8 DIR.FLIPPED
    else edges0
  let edges2 : Nat → Cubie :=
    if (data 28 = 2 ∧ data 29 = 6 ∧ data 30 = 2) ∨
       (data 28 = 0x0A ∧ data 29 = 0x0F ∧ data 30 = 0x0A) then
      updOrient (updOrient (updOrient (updOrient edges1
        2 DIR.FLIPPED) 5 DIR.FLIPPED) 6 DIR.FLIPPED) 10 DIR.FLIPPED
    else edges1
  { edges := edges2
    corners := corners
    centers := solvedCenters
    turnedFace := data 32
    turnedDir := if data 33 = 1 then 0 else 1
    lastTurnedFace := data 34
    lastTurnedDir := if data 35 = 1 then 0 else 1 }

/-- `CubeModel::isSolved()`: scans i = 0..11, fails if edge slot i is not
the identity ORIENTED cubie, and, for i < 6 only, fails if corner slot i
is not the identity ORIENTED cubie. -/
def CubeModel.isSolved (s : CubeModel) : Bool :=
  (List.range 12).all fun i =>
    (decide ((s.edges i).index = i) && decide ((s.edges i).orientation = DIR.ORIENTED)) &&
    (decide (6 ≤ i) ||
      (decide ((s.corners i).index = i) && decide ((s.corners i).orientation = DIR.ORIENTED)))

/-- `CubeModel::operator==`: positional comparison of the 12 edge slots,
8 corner slots and 6 centers, in one fused loop as in the source; move
metadata is not compared. -/
def CubeModel.eq (a b : CubeModel) : Bool :=
  (List.range 12).all fun i =>
    (decide ((a.edges i).index = (b.edges i).index) &&
      decide ((a.edges i).orientation = (b.edges i).orientation)) &&
    (decide (8 ≤ i) ||
      (decide ((a.corners i).index = (b.corners i).index) &&
        decide ((a.corners i).orientation = (b.corners i).orientation))) &&
    (decide (6 ≤ i) || decide (a.centers i = b.centers i))

/-- The fixed 2-color pair of each of the 12 original edge identities
(the `switch` table in `CubeModel::getEdgeColors`); `none` models the
fall-through (uninitialised `result`) for an out-of-range index. -/
def edgeColorPair : Nat → Option (COLOR × COLOR)
  | 0 => some (COLOR.GREEN, COLOR.YELLOW)
  | 1 => some (COLOR.GREEN, COLOR.RED)
  | 2 => some (COLOR.GREEN, COLOR.WHITE)
  | 3 => some (COLOR.GREEN, COLOR.ORANGE)
  | 4 => some (COLOR.YELLOW, COLOR.RED)
  | 5 => some (COLOR.WHITE, COLOR.RED)
  | 6 => some (COLOR.WHITE, COLOR.ORANGE)
  | 7 => some (COLOR.YELLOW, COLOR.ORANGE)
  | 8 => some (COLOR.BLUE, COLOR.YELLOW)
  | 9 => some (COLOR.BLUE, COLOR.RED)
  | 10 => some (COLOR.BLUE, COLOR.WHITE)
  | 11 => some (COLOR.BLUE, COLOR.ORANGE)
  | _ => none

/-- `CubeModel::getEdgeColors(EDGE)`: look up the pair for the occupying
cubie's stored index, then swap the two entries iff the slot orientation
is FLIPPED.  The `EDGE` argument is the enum, i.e. `Fin 12`. -/
def CubeModel.getEdgeColors (s : CubeModel) (edge : Fin 12) : Option (COLOR × COLOR) :=
  let c := s.edges edge.val
  (edgeColorPair c.index).map fun p =>
    if c.orientation = DIR.FLIPPED then (p.2, p.1) else p

/-- The fixed 3-color triple of each of the 8 original corner identities
(the `switch` table in `CubeModel::getCornerColors`); `none` models the
fall-through for an out-of-range index. -/
def cornerColorTriple : Nat → Option (COLOR × COLOR × COLOR)
  | 0 => some (COLOR.GREEN, COLOR.RED, COLOR.YELLOW)
  | 1 => some (COLOR.GREEN, COLOR.RED, COLOR.WHITE)
  | 2 => some (COLOR.GREEN, COLOR.ORANGE, COLOR.WHITE)
  | 3 => some (COLOR.GREEN, COLOR.ORANGE, COLOR.YELLOW)
  | 4 => some (COLOR.BLUE, COLOR.RED, COLOR.YELLOW)
  | 5 => some (COLOR.BLUE, COLOR.RED, COLOR.WHITE)
  | 6 => some (COLOR.BLUE, COLOR.ORANGE, COLOR.WHITE)
  | 7 => some (COLOR.BLUE, COLOR.ORANGE, COLOR.YELLOW)
  | _ => none

/-- The `(i0, i1, i2)` computation of `CubeModel::getCornerColors`:
base cyclic assignment selected by the orientation code, then the
`(index + position) % 2` parity swap, and the extra not-solved swap in
the ROTATED_TWICE (`else`) branch.  Each triple below is the tuple
`(i0, i1, i2)` after the source's `swap` calls are applied. -/
def cornerIdx (s : CubeModel) (cubie : Cubie) (pos : Nat) : Nat × Nat × Nat :=
  if cubie.orientation = DIR.ORIENTED then
    if (cubie.index + pos) % 2 = 1 then (0, 2, 1) else (0, 1, 2)
  else if cubie.orientation = DIR.ROTATED then
    if (cubie.index + pos) % 2 = 1 then (1, 0, 2) else (2, 0, 1)
  else
    if (cubie.index + pos) % 2 = 1 then (2, 1, 0)
    else if ¬ s.isSolved then (2, 1, 0)
    else (1, 2, 0)

/-- `result[i0] = c0; result[i1] = c1; result[i2] = c2` read back at
position `j`: since `(i0,i1,i2)` is always a permutation of `(0,1,2)`,
exactly one write hits each cell. -/
def place3 (i : Nat × Nat × Nat) (c : COLOR × COLOR × COLOR) (j : Nat) : COLOR :=
  if i.1 = j then c.1 else if i.2.1 = j then c.2.1 else c.2.2

/-- `CubeModel::getCornerColors(CORNER)`: resolve the occupying cubie's
fixed triple and emit it through the `(i0,i1,i2)` assignment.  The
`CORNER` argument is the enum, i.e. `Fin 8`.  Result components are the
cells `result[0], result[1], result[2]` (axis order Z, Y, X). -/
def CubeModel.getCornerColors (s : CubeModel) (corner : Fin 8) : Option (COLOR × COLOR × COLOR) :=
  let cubie := s.corners corner.val
  (cornerColorTriple cubie.index).map fun c =>
    let i := cornerIdx s cubie corner.val
    (place3 i c 0, place3 i c 1, place3 i c 2)

/-- `getEdgeColors(e)[0]`. -/
def CubeModel.edgeColor0 (s : CubeModel) (e : Fin 12) : Option COLOR :=
  (s.getEdgeColors e).map fun p => p.1

/-- `getEdgeColors(e)[1]`. -/
def CubeModel.edgeColor1 (s : CubeModel) (e : Fin 12) : Option COLOR :=
  (s.getEdgeColors e).map fun p => p.2

/-- `getCornerColors(c)[0]`. -/
def CubeModel.cornerColor0 (s : CubeModel) (c : Fin 8) : Option COLOR :=
  (s.getCornerColors c).map fun t => t.1

/-- `getCornerColors(c)[1]`. -/
def CubeModel.cornerColor1 (s : CubeModel) (c : Fin 8) : Option COLOR :=
  (s.getCornerColors c).map fun t => t.2.1

/-- `getCornerColors(c)[2]`. -/
def CubeModel.cornerColor2 (s : CubeModel) (c : Fin 8) : Option COLOR :=
  (s.getCornerColors c).map fun t => t.2.2

/-- `CubeModel::getColor(FACE, row, col)`: the (1,1) cell returns
`centers[(uint8_t)face]` (out of bounds, hence `none`, when `face` is
not one of the six real faces); every other cell goes through the
per-face `switch`, whose `default` returns `COLOR::WHITE`.  Edge/corner
slot numbers and component indices are transcribed one-to-one from the
source (`EDGE`/`CORNER` numeric codes listed in the header comment);
note the RIGHT face row 0 referencing `URF[1]` at both col 0 and col 2,
exactly as in the source. -/
def CubeModel.getColor (s : CubeModel) (face row col : Nat) : Option COLOR :=
  if row = 1 ∧ col = 1 then
    if face < 6 then some (s.centers face) else none
  else
    match face with
    | 0 =>
      if row = 0 then
        if col = 0 then s.cornerColor0 0
        else if col = 1 then s.edgeColor0 0
        else s.cornerColor0 3
      else if row = 1 then
        if col = 0 then s.edgeColor0 1 else s.edgeColor0 3
      else
        if col = 0 then s.cornerColor0 1
        else if col = 1 then s.edgeColor0 2
        else s.cornerColor0 2
    | 1 =>
      if row = 0 then
        if col = 0 then s.cornerColor1 0
        else if col = 1 then s.edgeColor1 1
        else s.cornerColor1 1
      else if row = 1 then
        if col = 0 then s.edgeColor1 4 else s.edgeColor1 5
      else
        if col = 0 then s.cornerColor1 4
        else if col = 1 then s.edgeColor1 9
        else s.cornerColor1 5
    | 2 =>
      if row = 0 then
        if col = 0 then s.cornerColor2 1
        else if col = 1 then s.edgeColor1 2
        else s.cornerColor2 2
      else if row = 1 then
        if col = 0 then s.edgeColor0 5 else s.edgeColor0 6
      else
        if col = 0 then s.cornerColor2 5
        else if col = 1 then s.edgeColor1 10
        else s.cornerColor2 6
    | 3 =>
      if row = 0 then
        if col = 0 then s.cornerColor1 2
        else if col = 1 then s.edgeColor1 3
        else s.cornerColor1 2
      else if row = 1 then
        if col = 0 then s.edgeColor1 6 else s.edgeColor1 7
      else
        if col = 0 then s.cornerColor1 6
        else if col = 1 then s.edgeColor1 11
        else s.cornerColor1 7
    | 4 =>
      if row = 0 then
        if col = 0 then s.cornerColor2 3
        else if col = 1 then s.edgeColor1 0
        else s.cornerColor2 0
      else if row = 1 then
        if col = 0 then s.edgeColor0 7 else s.edgeColor0 4
      else
        if col = 0 then s.cornerColor2 7
        else if col = 1 then s.edgeColor1 8
        else s.cornerColor2 4
    | 5 =>
      if row = 0 then
        if col = 0 then s.cornerColor0 5
        else if col = 1 then s.edgeColor0 10
        else s.cornerColor0 6
      else if row = 1 then
        if col = 0 then s.edgeColor0 9 else s.edgeColor0 11
      else
        if col = 0 then s.cornerColor0 4
        else if col = 1 then s.edgeColor0 8
        else s.cornerColor0 7
    | _ => some COLOR.WHITE

/-- `CubeModel::getFaceColors(FACE)`: the 3x3 grid assembled cell by
cell from `getColor`. -/
def CubeModel.getFaceColors (s : CubeModel) (face : Nat) : List (List (Option COLOR)) :=
  (List.range 3).map fun row => (List.range 3).map fun col => s.getColor face row col

/-- The canonical solved 36-byte frame of the protocol documentation:
corner identities 1..8, corner orientations all 3, edge identities
1..12, flip triple (0,0,0), reserved 0, move bytes 5 3 5 1. -/
def solvedFrame : Nat → Nat := fun i =>
  List.getD
    [1, 2, 3, 4, 5, 6, 7, 8,
     3, 3, 3, 3, 3, 3, 3, 3,
     1, 2, 3, 4, 5, 6, 7, 8, 9, 10, 11, 12,
     0, 0, 0, 0,
     5, 3, 5, 1] i 0

/-- The solved frame with flip triple (8,9,8) (BACK-face roll). -/
def frame898 : Nat → Nat := fun i =>
  if i = 28 then 8 else if i = 29 then 9 else if i = 30 then 8 else solvedFrame i

/-- The solved frame with flip triple (2,6,2) (FRONT-face roll). -/
def frame262 : Nat → Nat := fun i =>
  if i = 28 then 2 else if i = 29 then 6 else if i = 30 then 2 else solvedFrame i

/-- The solved frame with flip triple (0x0A,0x0F,0x0A) (both rolls). -/
def frameAFA : Nat → Nat := fun i =>
  if i = 28 then 10 else if i = 29 then 15 else if i = 30 then 10 else solvedFrame i

/-- The solved frame with unrecognized flip triple (1,1,1). -/
def badFlipFrame : Nat → Nat := fun i =>
  if i = 28 then 1 else if i = 29 then 1 else if i = 30 then 1 else solvedFrame i

/-- A state that is not solved: corner slot ULB holds the ULB cubie
twisted to ROTATED_TWICE; everything else is the identity.  The parity
term (0 + 0) % 2 is even. -/
def W1 : CubeModel :=
  { CubeModel.init with
    corners := fun i =>
      if i = 0 then { index := 0, orientation := DIR.ROTATED_TWICE }
      else { index := i, orientation := DIR.ORIENTED } }

/-- A state that `isSolved()` reports as solved (the scan stops at
corner slot 5) while corner slot DRF = 6 holds the DRF cubie twisted to
ROTATED_TWICE.  The parity term (6 + 6) % 2 is even. -/
def W2 : CubeModel :=
  { CubeModel.init with
    corners := fun i =>
      if i = 6 then { index := 6, orientation := DIR.ROTATED_TWICE }
      else { index := i, orientation := DIR.ORIENTED } }

/-- C1: decoding the canonical solved 36-byte frame (corner identities
1..8, corner orientations all 3, edge identities 1..12, flip triple
(0,0,0), move bytes 5 3 5 1) yields a state for which `isSolved()` is
true and for which every one of the six faces' `getFaceColors` grid is
uniformly that face's fixed center color. -/
theorem C1_solved_frame_uniform :
    (CubeModel.decode solvedFrame).isSolved = true ∧
    ∀ f : Fin 6,
      (CubeModel.decode solvedFrame).getFaceColors f.val =
        List.replicate 3 (List.replicate 3 (some (solvedCenters f.val))) := by
  decide

/-- C7: the default-constructed state and the state decoded from the
canonical solved frame are equal under `operator==` (which compares the
12 edge slots, 8 corner slots and 6 centers and ignores move metadata);
their move metadata actually differs (`NONE` = 6 vs decoded 5), which
the comparison does not see. -/
theorem C7_default_eq_decoded :
    CubeModel.eq CubeModel.init (CubeModel.decode solvedFrame) = true ∧
    CubeModel.init.turnedFace ≠ (CubeModel.decode solvedFrame).turnedFace := by
  decide

/-- C2: in the decoding constructor, the flip triple (8,9,8) makes edge
slots {UB=0, BL=4, _BR=7, DB=8} FLIPPED and all other edge slots
ORIENTED; (2,6,2) makes {UF=2, FL=5, FR=6, DF=10} FLIPPED and the rest
ORIENTED; (0x0A,0x0F,0x0A) makes all eight of those FLIPPED and the
remaining four ORIENTED. -/
theorem C2_flip_triples (data : Nat → Nat) :
    (data 28 = 8 ∧ data 29 = 9 ∧ data 30 = 8 →
      ∀ j : Fin 12,
        ((CubeModel.decode data).edges j.val).orientation =
          if j.val = 0 ∨ j.val = 4 ∨ j.val = 7 ∨ j.val = 8 then
            DIR.FLIPPED else DIR.ORIENTED) ∧
    (data 28 = 2 ∧ data 29 = 6 ∧ data 30 = 2 →
      ∀ j : Fin 12,
        ((CubeModel.decode data).edges j.val).orientation =
          if j.val = 2 ∨ j.val = 5 ∨ j.val = 6 ∨ j.val = 10 then
            DIR.FLIPPED else DIR.ORIENTED) ∧
    (data 28 = 10 ∧ data 29 = 15 ∧ data 30 = 10 →
      ∀ j : Fin 12,
        ((CubeModel.decode data).edges j.val).orientation =
          if j.val = 0 ∨ j.val = 2 ∨ j.val = 4 ∨ j.val = 5 ∨
             j.val = 6 ∨ j.val = 7 ∨ j.val = 8 ∨ j.val = 10 then
            DIR.FLIPPED else DIR.ORIENTED) := by
  refine ⟨fun h => ?_, fun h => ?_, fun h => ?_⟩ <;>
    obtain ⟨h28, h29, h30⟩ := h <;>
    intro j <;>
    fin_cases j <;>
    simp [CubeModel.decode, updOrient, h28, h29, h30,
      DIR.FLIPPED, DIR.ORIENTED]

/-- Witness for C2 at the three concrete frames. -/
theorem C2_flip_triples_witness :
    ((CubeModel.decode frame898).edges 0).orientation = DIR.FLIPPED ∧
    ((CubeModel.decode frame262).edges 2).orientation = DIR.FLIPPED ∧
    ((CubeModel.decode frameAFA).edges 10).orientation = DIR.FLIPPED := by
  refine ⟨?_, ?_, ?_⟩
  · have h := (C2_flip_triples frame898).1 (by decide) 0
    simpa using h
  · have h := (C2_flip_triples frame262).2.1 (by decide) 2
    simpa using h
  · have h := (C2_flip_triples frameAFA).2.2 (by decide) 10
    simpa using h

/-- C3 counterexample: decoding a frame whose bytes 28-30 are the
unrecognized triple (1,1,1) raises nothing — the constructor runs to
completion and every edge orientation silently defaults to ORIENTED,
contradicting the claimed `InvalidFlipPattern` error. -/
theorem C3_counterexample_silent_default :
    badFlipFrame 28 = 1 ∧ badFlipFrame 29 = 1 ∧ badFlipFrame 30 = 1 ∧
    ((List.range 12).all fun j =>
      decide (((CubeModel.decode badFlipFrame).edges j).orientation =
        DIR.ORIENTED)) = true := by
  decide

/-- C3 amended: decoding a 36-byte frame whose bytes 28-30 form a triple
matching none of (8,9,8), (2,6,2), (0x0A,0x0F,0x0A) produces no error:
the constructor yields a state in which every edge orientation silently
defaults to ORIENTED. -/
theorem C3_amended_silent_default (data : Nat → Nat)
    (h1 : ¬(data 28 = 8 ∧ data 29 = 9 ∧ data 30 = 8))
    (h2 : ¬(data 28 = 2 ∧ data 29 = 6 ∧ data 30 = 2))
    (h3 : ¬(data 28 = 10 ∧ data 29 = 15 ∧ data 30 = 10)) :
    ∀ j : Nat, ((CubeModel.decode data).edges j).orientation = DIR.ORIENTED := by
  intro j
  simp only [CubeModel.decode]
  rw [if_neg (by tauto), if_neg (by tauto)]

/-- Witness for C3's amended statement at the concrete frame (1,1,1). -/
theorem C3_amended_witness :
    ((CubeModel.decode badFlipFrame).edges 5).orientation = DIR.ORIENTED :=
  C3_amended_silent_default badFlipFrame (by decide) (by decide) (by decide) 5

/-- C4 counterexample: the canonical solved frame carries face-index
byte 5 (Red in the device's convention), yet the stored `turnedFace` is
the raw value 5, a face whose fixed center color is BLUE, not RED — the
decoder performs no device-index-to-color-face mapping. -/
theorem C4_counterexample_raw_cast :
    solvedFrame 32 = 5 ∧
    (CubeModel.decode solvedFrame).turnedFace = 5 ∧
    (CubeModel.decode solvedFrame).centers 5 = COLOR.BLUE ∧
    COLOR.BLUE ≠ COLOR.RED := by
  decide

/-- C4 amended: `turnedFace` and `lastTurnedFace` store the raw
face-index bytes 32 and 34 unchanged (a direct cast into the face
enumeration).  Under the fixed center assignment this makes stored value
1 the RED-centered LEFT face, 2 the WHITE-centered FRONT, 3 the
ORANGE-centered RIGHT, 4 the YELLOW-centered BACK and 5 the BLUE-centered
DOWN (and 6 the centerless NONE), so the device color convention
1=Blue..6=Green is not translated to center colors. -/
theorem C4_amended_raw_face (data : Nat → Nat) :
    (CubeModel.decode data).turnedFace = data 32 ∧
    (CubeModel.decode data).lastTurnedFace = data 34 ∧
    (CubeModel.decode data).centers 1 = COLOR.RED ∧
    (CubeModel.decode data).centers 2 = COLOR.WHITE ∧
    (CubeModel.decode data).centers 3 = COLOR.ORANGE ∧
    (CubeModel.decode data).centers 4 = COLOR.YELLOW ∧
    (CubeModel.decode data).centers 5 = COLOR.BLUE :=
  ⟨rfl, rfl, rfl, rfl, rfl, rfl, rfl⟩

/-- C6: `isSolved()` is true iff all 12 edge slots hold the identity
cubie with ORIENTED orientation and the first 6 corner slots (positions
0-5 only; slots 6 and 7 are not checked) hold the identity cubie with
ORIENTED orientation. -/
theorem C6_isSolved_iff (s : CubeModel) :
    s.isSolved = true ↔
      ((∀ i : Fin 12,
          (s.edges i.val).index = i.val ∧
          (s.edges i.val).orientation = DIR.ORIENTED) ∧
       (∀ i : Fin 6,
          (s.corners i.val).index = i.val ∧
          (s.corners i.val).orientation = DIR.ORIENTED)) := by
  simp only [CubeModel.isSolved, List.all_eq_true, List.mem_range,
    Bool.and_eq_true, Bool.or_eq_true, decide_eq_true_eq]
  constructor
  · intro h
    refine ⟨fun i => (h i.val i.isLt).1, fun i => ?_⟩
    rcases (h i.val (by omega)).2 with h6 | h6
    · exact absurd h6 (by omega)
    · exact h6
  · rintro ⟨he, hc⟩ i hi
    refine ⟨he ⟨i, hi⟩, ?_⟩
    by_cases h6 : i < 6
    · exact Or.inr (hc ⟨i, h6⟩)
    · exact Or.inl (by omega)

/-- C5: for every cube state and edge slot whose occupying cubie's
stored index is one of the 12 identities, `getEdgeColors` returns that
identity's fixed color pair — in canonical order when the slot is
ORIENTED and in exactly reversed order when the slot is FLIPPED. -/
theorem C5_edge_colors (s : CubeModel) (e : Fin 12)
    (h : (s.edges e.val).index < 12) :
    (edgeColorPair (s.edges e.val).index).isSome = true ∧
      ((s.edges e.val).orientation = DIR.ORIENTED →
        s.getEdgeColors e = edgeColorPair (s.edges e.val).index) ∧
      ((s.edges e.val).orientation = DIR.FLIPPED →
        s.getEdgeColors e =
          (edgeColorPair (s.edges e.val).index).map fun p => (p.2, p.1)) := by
  refine ⟨?_, fun ho => ?_, fun ho => ?_⟩
  · set k := (s.edges e.val).index with hk
    interval_cases k <;> rfl
  · cases hp : edgeColorPair (s.edges e.val).index <;>
      simp [CubeModel.getEdgeColors, hp, ho, DIR.ORIENTED, DIR.FLIPPED]
  · cases hp : edgeColorPair (s.edges e.val).index <;>
      simp [CubeModel.getEdgeColors, hp, ho, DIR.ORIENTED, DIR.FLIPPED]

/-- Witness for C5: in the frame898 decode, edge slot UB holds identity
UB with FLIPPED orientation, so its pair (GREEN, YELLOW) comes out
reversed. -/
theorem C5_edge_colors_witness :
    CubeModel.getEdgeColors (CubeModel.decode frame898) 0 =
      some (COLOR.YELLOW, COLOR.GREEN) := by
  have h :=
    (C5_edge_colors (CubeModel.decode frame898) 0 (by decide)).2.2 (by decide)
  rw [h]
  decide

/-- C8: in `getCornerColors`, a slot holding a cubie with orientation
ROTATED_TWICE and even parity term ((index + position) % 2 = 0) emits
the cubie's fixed triple (c0,c1,c2) at cell positions (2,1,0) — i.e.
result (c2,c1,c0) — when the cube is not solved, and at the base
positions (1,2,0) — i.e. result (c2,c0,c1) — when the cube is solved. -/
theorem C8_rotated_twice_even (s : CubeModel) (pos : Fin 8)
    (hidx : (s.corners pos.val).index < 8)
    (ho : (s.corners pos.val).orientation = DIR.ROTATED_TWICE)
    (hp : ((s.corners pos.val).index + pos.val) % 2 = 0) :
    (cornerColorTriple (s.corners pos.val).index).isSome = true ∧
      (s.isSolved = false →
        s.getCornerColors pos =
          (cornerColorTriple (s.corners pos.val).index).map fun c =>
            (c.2.2, c.2.1, c.1)) ∧
      (s.isSolved = true →
        s.getCornerColors pos =
          (cornerColorTriple (s.corners pos.val).index).map fun c =>
            (c.2.2, c.1, c.2.1)) := by
  refine ⟨?_, fun hs => ?_, fun hs => ?_⟩
  · set k := (s.corners pos.val).index with hk
    interval_cases k <;> rfl
  · cases hcp : cornerColorTriple (s.corners pos.val).index <;>
      simp [CubeModel.getCornerColors, hcp, cornerIdx, place3, ho, hp, hs,
        DIR.ORIENTED, DIR.ROTATED, DIR.ROTATED_TWICE]
  · cases hcp : cornerColorTriple (s.corners pos.val).index <;>
      simp [CubeModel.getCornerColors, hcp, cornerIdx, place3, ho, hp, hs,
        DIR.ORIENTED, DIR.ROTATED, DIR.ROTATED_TWICE]

/-- Witness for C8: the unsolved state W1 (triple GRY at ULB) emits
(Y,R,G); the solved-reporting state W2 (triple BOW at DRF) emits
(W,B,O). -/
theorem C8_rotated_twice_even_witness :
    CubeModel.getCornerColors W1 0 =
      some (COLOR.YELLOW, COLOR.RED, COLOR.GREEN) ∧
    CubeModel.getCornerColors W2 6 =
      some (COLOR.WHITE, COLOR.BLUE, COLOR.ORANGE) := by
  constructor
  · have h :=
      (C8_rotated_twice_even W1 0 (by decide) (by decide) (by decide)).2.1
        (by decide)
    rw [h]
    decide
  · have h :=
      (C8_rotated_twice_even W2 6 (by decide) (by decide) (by decide)).2.2
        (by decide)
    rw [h]
    decide

/-- C9: in the RIGHT-face grid mapping, cells (0,0) and (0,2) both read
color index 1 of the corner query at slot URF = 2, so they are equal for
every cube state. -/
theorem C9_right_face_row0_duplicate (s : CubeModel) :
    s.getColor 3 0 0 = s.cornerColor1 2 ∧
    s.getColor 3 0 2 = s.cornerColor1 2 ∧
    s.getColor 3 0 0 = s.getColor 3 0 2 :=
  ⟨rfl, rfl, rfl⟩

/-- C10: for every state and every non-center cell, `getColor` with a
face value outside the six real faces falls through the switch's
default branch and returns WHITE. -/
theorem C10_unknown_face_white (s : CubeModel) (face row col : Nat)
    (hface : 6 ≤ face) (hrc : ¬(row = 1 ∧ col = 1)) :
    s.getColor face row col = some COLOR.WHITE := by
  obtain ⟨k, rfl⟩ : ∃ k, face = k + 6 := ⟨face - 6, by omega⟩
  unfold CubeModel.getColor
  rw [if_neg hrc]
  rfl

/-- Witness for C10 at `FACE::NONE` = 6, cell (0,0), on the default
state. -/
theorem C10_unknown_face_white_witness :
    CubeModel.init.getColor 6 0 0 = some COLOR.WHITE :=
  C10_unknown_face_white CubeModel.init 6 0 0 (by decide) (by decide)
